import Mathlib

/-!
Verification of the changelog-generator pipeline: a shallow embedding of the
relevant functions of `processor.py`, `github_client.py`, `llm_handler.py` and
`cli.py`, together with theorems settling the specification's claims about
them. Python `Optional` values are modelled as `Option`, Python string
truthiness is made explicit, machine-level string operations (`strip`,
slicing, `split`, `lower`, `endswith`) are modelled on the underlying
character lists, and the network calls a code path issues are recorded as an
explicit trace.
-/

set_option maxRecDepth 8000

namespace Tagline

/-- Truthiness of a Python `Optional[str]`: `None` and the empty string are
falsy, every other string is truthy. -/
def truthy : Option String → Bool
  | none => false
  | some s => !(s == "")

/-- Concatenation of a list of strings, modelling repeated `+=` accumulation
in a Python loop. -/
def concatAll : List String → String
  | [] => ""
  | s :: rest => s ++ concatAll rest

/-- Model of Python `"sep".join(parts)`. -/
def joinSep (sep : String) : List String → String
  | [] => ""
  | [s] => s
  | s :: rest => s ++ sep ++ joinSep sep rest

/-- Whitespace predicate backing the model of Python `str.strip()`. -/
def isWs (c : Char) : Bool := c.isWhitespace

/-- Model of Python `str.strip()`: remove leading and trailing whitespace. -/
def pyStrip (s : String) : String :=
  String.mk (List.rdropWhile isWs (List.dropWhile isWs s.data))

/-- Model of Python slicing `s[:n]`, which counts code points. -/
def pySlice (s : String) (n : Nat) : String := String.mk (s.data.take n)

/-- Model of Python `str.split(sep)` for a one-character separator, on the
character list: splitting the empty text yields one empty field, and each
separator occurrence starts a new field. -/
def splitCharAux (sep : Char) : List Char → List (List Char)
  | [] => [[]]
  | c :: rest =>
    if c = sep then [] :: splitCharAux sep rest
    else
      match splitCharAux sep rest with
      | [] => [[c]]
      | s :: ss => (c :: s) :: ss

/-- Model of Python `s.split(sep)` for a one-character separator. -/
def pySplitChar (s : String) (sep : Char) : List String :=
  (splitCharAux sep s.data).map String.mk

/-! ## Data model: objects read from the GitHub compare endpoint -/

/-- Commit object from the compare endpoint, restricted to the fields the
pipeline reads (`sha`, `commit.message`, `commit.author.name`,
`commit.author.date`); a `none` field models a missing dictionary key at any
level of the nesting. -/
structure CommitData where
  sha : Option String
  message : Option String
  authorName : Option String
  authorDate : Option String
deriving DecidableEq

/-- File object from the compare endpoint, restricted to the fields the
pipeline reads; `patch` may be absent (binary files, or diffs GitHub elects
not to return). -/
structure FileData where
  filename : Option String
  status : Option String
  patch : Option String
  additions : Option Nat
  deletions : Option Nat
deriving DecidableEq

/-! ## processor.py: `format_commit_data_for_llm` -/

/-- Rendering of one commit inside `format_commit_data_for_llm`
(processor.py lines 28-40): header line with short SHA, author and date,
followed by the message lines indented by four spaces, then a blank line. -/
def renderCommit (c : CommitData) : String :=
  let shaShort := pySlice (c.sha.getD "N/A") 7
  let message := pyStrip (c.message.getD "No commit message")
  let author := c.authorName.getD "Unknown Author"
  let date := c.authorDate.getD "Unknown Date"
  "- " ++ shaShort ++ " by " ++ author ++ " (" ++ date ++ "):\n" ++
    concatAll ((pySplitChar message '\n').map (fun line => "    " ++ line ++ "\n")) ++ "\n"

/-- Commit section of the assembled prompt (processor.py lines 24-40): a
fixed header, then either the explicit no-commits placeholder or the rendered
commits. -/
def commitsSection (commits : List CommitData) : String :=
  "Relevant Commits:\n" ++
    (if commits.isEmpty then
      "- No individual commits found in range (perhaps a single merge commit?).\n"
    else concatAll (commits.map renderCommit))

/-- Rendering of one included file inside `format_commit_data_for_llm`
(processor.py lines 55-68): filename and status, then either the fenced diff
block (patch capped at 1000 characters with an explicit truncation marker) or
the explicit no-diff marker, then a blank line. -/
def renderFile (f : FileData) : String :=
  let filename := f.filename.getD "Unknown file"
  let status := f.status.getD "unknown"
  let patch := f.patch.getD ""
  "- " ++ filename ++ " (" ++ status ++ ")" ++
    (if patch ≠ "" then
      "\n```diff\n" ++
        (pySlice patch 1000 ++
          (if 1000 < patch.length then "\n... (diff truncated)" else "")) ++
        "\n```\n"
    else " (No diff provided)\n") ++ "\n"

/-- File-rendering loop of `format_commit_data_for_llm` (processor.py lines
49-69): `total` is `len(files)`, `included` the running counter; once 50
files are rendered a single omission-count line is emitted and the loop
breaks. -/
def renderFilesLoop (total : Nat) : List FileData → Nat → String
  | [], _ => ""
  | f :: rest, included =>
    if 50 ≤ included then
      "- ... (truncated " ++ toString (total - included) ++ " more files)\n"
    else renderFile f ++ renderFilesLoop total rest (included + 1)

/-- File section of the assembled prompt (processor.py lines 42-69). -/
def filesSection (files : List FileData) : String :=
  "\nChanged Files Summary (Patches/Diffs):\n" ++
    (if files.isEmpty then "- No file changes detected in this range.\n"
    else renderFilesLoop files.length files 0)

/-- Embedding of `format_commit_data_for_llm` (processor.py lines 8-72): the
assembled prompt is the commit section followed by the file section. -/
def format_commit_data_for_llm (commits : List CommitData) (files : List FileData) : String :=
  commitsSection commits ++ filesSection files

/-! ## github_client.py: repository-string validation -/

/-- Acceptance predicate of `GitHubClient.__init__` (github_client.py lines
18-20): the constructor raises `ValueError` unless `'/' in repo` and
`len(repo.split('/')) == 2`; `true` means the construction succeeds. -/
def ghClientAccepts (repo : String) : Bool :=
  repo.data.contains '/' && (pySplitChar repo '/').length == 2

/-! ## processor.py: reference resolution and its network calls -/

/-- Network calls that `process_repository` can issue while resolving and
fetching the comparison. -/
inductive NetCall where
  | getDefaultBranch
  | compareCommits (base head : String)
deriving DecidableEq

/-- Remote state observed by `process_repository` when it asks for the
repository's default branch: `none` models both a missing `default_branch`
key and an API-level absence. -/
structure GitHubEnv where
  defaultBranch : Option String
deriving DecidableEq

/-- Reference resolution of `process_repository` (processor.py lines
102-118), with the network calls it issues recorded in order. `none` models
the early `return None` error paths; the tag-range branch is tested first
(`if tag_range:`), the since branch next (`elif since_tag:`, empty string
falsy), and `head_ref = target_branch or client.get_default_branch()`
consults the remote default branch only when no truthy branch override is
given. -/
def resolveRefs (sinceTag : Option String) (tagRange : Option (String × String))
    (targetBranch : Option String) (env : GitHubEnv) :
    Option (String × String) × List NetCall :=
  match tagRange with
  | some (f, t) => (some (f, t), [])
  | none =>
    if truthy sinceTag then
      if truthy targetBranch then
        (some (sinceTag.getD "", targetBranch.getD ""), [])
      else if truthy env.defaultBranch then
        (some (sinceTag.getD "", env.defaultBranch.getD ""), [NetCall.getDefaultBranch])
      else (none, [NetCall.getDefaultBranch])
    else (none, [])

/-- Resolution followed by the comparison fetch (processor.py lines 102-122):
whenever a `(base, head)` pair is resolved, `compare_commits(base, head)` is
the next network call. -/
def processCalls (sinceTag : Option String) (tagRange : Option (String × String))
    (targetBranch : Option String) (env : GitHubEnv) :
    Option (String × String) × List NetCall :=
  match resolveRefs sinceTag tagRange targetBranch env with
  | (some (b, h), calls) => (some (b, h), calls ++ [NetCall.compareCommits b h])
  | (none, calls) => (none, calls)

/-! ## llm_handler.py: generation call handling and fallback -/

/-- Outcome of one raw `model.generate_content` call as observed by
`_safe_generate_content`: either the SDK raised an exception carrying a
message, or a response arrived with a candidate count, an optional block
reason from `prompt_feedback`, and a `text` accessor that either returns a
string or raises with a message. -/
inductive GenAttempt where
  | apiError (msg : String)
  | response (numCandidates : Nat) (blockReason : Option String) (text : Except String String)

/-- Embedding of `LLMHandler._safe_generate_content` (llm_handler.py lines
72-103): `Except.error` is a raised exception with its message, `Except.ok`
the returned generated text. With no candidates and a truthy block reason the
blocked message is raised; with no candidates and no block reason the inner
`try` block always ends in a raise, so the raised message is always the
"Empty or invalid response structure" wrapper around the inner error. With
candidates, the stripped text is returned unless it is empty. -/
def safeGenerateContent : GenAttempt → Except String String
  | .apiError msg => .error msg
  | .response 0 blockReason text =>
    if truthy blockReason then
      .error ("LLM Response Blocked: " ++ blockReason.getD "")
    else
      .error ("Empty or invalid response structure from LLM. Inner error: " ++
        match text with
        | .ok _ => "Empty response from LLM (No candidates returned, but no block reason)"
        | .error m => m)
  | .response (_ + 1) _ text =>
    match text with
    | .error m => .error m
    | .ok t =>
      if pyStrip t = "" then .error "Empty text content in LLM response"
      else .ok (pyStrip t)

/-- One cleaned commit line assembled by `LLMHandler.generate_changelog` into
the prompt data (llm_handler.py lines 116-123). -/
def cleanedCommitLine (c : CommitData) : String :=
  "- " ++ pySlice (c.sha.getD "") 7 ++ ": " ++ pyStrip (c.message.getD "") ++
    " (by " ++ c.authorName.getD "" ++ " on " ++ c.authorDate.getD "" ++ ")"

/-- The `commit_details` block assembled by `LLMHandler.generate_changelog`
(llm_handler.py line 125). -/
def commitDetails (commits : List CommitData) : String :=
  joinSep "\n" (commits.map cleanedCommitLine)

/-- One line of the `file_changes` block assembled by
`LLMHandler.generate_changelog` (llm_handler.py lines 128-132). -/
def fileChangeLine (f : FileData) : String :=
  "- " ++ f.filename.getD "" ++ ": " ++ f.status.getD "" ++ " (" ++
    toString (f.additions.getD 0) ++ " additions, " ++
    toString (f.deletions.getD 0) ++ " deletions)"

/-- The `file_changes` block assembled by `LLMHandler.generate_changelog`
(llm_handler.py lines 128-132). -/
def fileChanges (files : List FileData) : String :=
  joinSep "\n" (files.map fileChangeLine)

/-- Fallback content returned by `LLMHandler.generate_changelog` when the
generation call fails (llm_handler.py lines 152-166): an explicit failure
notice carrying the error text, followed verbatim by the commit and file data
that had been assembled into the prompt. -/
def fallbackContent (e fromRef toRef : String) (commits : List CommitData)
    (files : List FileData) : String :=
  "Failed to generate changelog due to an error: " ++ e ++
    "\n\nRaw commit data has been included below:\n\n# Commits between " ++
    fromRef ++ " and " ++ toRef ++ "\n\n" ++ commitDetails commits ++
    "\n\n# Files Changed\n\n" ++ fileChanges files ++ "\n"

/-- Embedding of `LLMHandler.generate_changelog` (llm_handler.py lines
105-166). `attempt` is the outcome of the single `generate_content` call on
the assembled prompt (the prompt template only feeds that call, so it is
absorbed into `attempt`). The function is total: a generation failure
produces the fallback string instead of an exception. -/
def generate_changelog (commits : List CommitData) (files : List FileData)
    (fromRef toRef : String) (attempt : GenAttempt) : String :=
  match safeGenerateContent attempt with
  | .ok t => t
  | .error e => fallbackContent e fromRef toRef commits files

/-! ## cli.py: filename sanitization and output-path resolution -/

/-- Character class removed by the regex `[<>:"\\|?*]` in `sanitize_filename`
(cli.py line 32). -/
def isBadFileChar (c : Char) : Bool :=
  c = '<' || c = '>' || c = ':' || c = '"' || c = '\\' || c = '|' || c = '?' || c = '*'

/-- Characters stripped from both ends by `name.strip('. ')` (cli.py
line 34). -/
def isDotOrSpace (c : Char) : Bool := c = '.' || c = ' '

/-- Character-level model of `name.replace("/", "-")` (cli.py line 30). -/
def slashToDash (c : Char) : Char := if c = '/' then '-' else c

/-- Model of `name.strip('. ')` (cli.py line 34). -/
def stripDotSpace (l : List Char) : List Char :=
  List.rdropWhile isDotOrSpace (List.dropWhile isDotOrSpace l)

/-- Character list left after the three cleaning steps of `sanitize_filename`
(cli.py lines 30-34): replace slashes by hyphens, drop the unsafe characters,
strip dots and spaces from both ends. -/
def cleanedChars (name : String) : List Char :=
  stripDotSpace ((name.data.map slashToDash).filter (fun c => !isBadFileChar c))

/-- Embedding of `sanitize_filename` (cli.py lines 27-38): clean the name and
substitute a fixed placeholder if nothing usable is left (the `== '.'` test
mirrors cli.py line 36, though stripping already removed outer dots). -/
def sanitize_filename (name : String) : String :=
  if cleanedChars name = [] ∨ cleanedChars name = ['.'] then "invalid_filename"
  else String.mk (cleanedChars name)

/-- Model of `safe_suggested_name.lower().endswith('.md')` and the
conditional extension append (cli.py lines 225-226). -/
def ensureMdExt (name : String) : String :=
  if ".md".data.isSuffixOf (name.data.map Char.toLower) then name else name ++ ".md"

/-- Embedding of the output-filename resolution of the `generate` command
(cli.py lines 209-237) as a function of the `--output` value, the AI
suggestion, and the repo and tag parameters. `os.path` is modelled for POSIX:
`os.path.dirname(p)` is non-empty exactly when `p` contains a slash,
`os.path.isabs(p)` means a leading slash, and
`os.path.join("changelogs", p)` prepends `"changelogs/"` for the relative
names that reach it. -/
def resolveOutputPath (output suggested : Option String) (repo fromTag toTag : String) : String :=
  if truthy output then
    let o := output.getD ""
    if o.data.contains '/' then o
    else if o.data.take 1 = ['/'] then o
    else "changelogs/" ++ o
  else if truthy suggested then
    "changelogs/" ++ ensureMdExt (sanitize_filename (suggested.getD ""))
  else
    "changelogs/" ++ sanitize_filename repo ++ "_" ++ sanitize_filename fromTag ++
      "_to_" ++ sanitize_filename toTag ++ ".md"

/-! ## cli.py: control flow of the `generate` command -/

/-- External calls the `generate` command can make. -/
inductive CliAction where
  | processRepo
  | dispatchWorkflow
deriving DecidableEq

/-- Terminal outcome of one `generate` run. -/
inductive CliOutcome where
  | exitError
  | deployDispatched
  | wroteFile (path : String)
deriving DecidableEq

/-- Python test `not changelog_content or not changelog_content.strip()`
(cli.py lines 161 and 201). -/
def contentBlank : Option String → Bool
  | none => true
  | some s => s == "" || pyStrip s == ""

/-- Control-flow embedding of the `generate` command (cli.py lines 88-251)
over the decisions the claims concern: tag validation, the token gate for
deployment, the `process_repository` call, the dispatch of the deploy
workflow, and the local file write. `proc` abstracts the outcome of
`process_repository` (`none` models a raised exception, otherwise the
content and filename suggestion); the returned list records the external
calls in order. The dispatch helper re-checks the token itself
(`trigger_deploy_workflow`, cli.py lines 49-52). -/
def generateRun (repo : String) (fromTag toTag output token : Option String)
    (isLocal : Bool) (proc : Option (Option String × Option String)) :
    CliOutcome × List CliAction :=
  if !(truthy fromTag && truthy toTag) then (.exitError, [])
  else if !(isLocal && truthy output) then
    if !truthy token && !isLocal then (.exitError, [])
    else
      match proc with
      | none => (.exitError, [.processRepo])
      | some (content, suggested) =>
        if isLocal && contentBlank content then (.exitError, [.processRepo])
        else if !isLocal then
          if truthy token then (.deployDispatched, [.processRepo, .dispatchWorkflow])
          else (.exitError, [.processRepo])
        else
          (.wroteFile (resolveOutputPath output suggested repo (fromTag.getD "") (toTag.getD "")),
            [.processRepo])
  else
    match proc with
    | none => (.exitError, [.processRepo])
    | some (content, _) =>
      if contentBlank content then (.exitError, [.processRepo])
      else
        (.wroteFile (resolveOutputPath output none repo (fromTag.getD "") (toTag.getD "")),
          [.processRepo])

/-! ## Helper lemmas -/

theorem truthy_eq_true {s : String} (h : s ≠ "") : truthy (some s) = true := by
  simp [truthy, h]

theorem truthy_none : truthy none = false := rfl

theorem splitCharAux_ne_nil (sep : Char) : ∀ l : List Char, splitCharAux sep l ≠ []
  | [] => by simp [splitCharAux]
  | c :: rest => by
    by_cases h : c = sep
    · simp [splitCharAux, h]
    · simp only [splitCharAux, if_neg h]
      split <;> simp

theorem splitCharAux_length (sep : Char) :
    ∀ l : List Char, (splitCharAux sep l).length = l.count sep + 1 := by
  intro l
  induction l with
  | nil => simp [splitCharAux]
  | cons c rest ih =>
    by_cases h : c = sep
    · subst h
      simp [splitCharAux, List.count_cons, ih]
    · rcases heq : splitCharAux sep rest with _ | ⟨s, ss⟩
      · exact absurd heq (splitCharAux_ne_nil sep rest)
      · simp only [splitCharAux, if_neg h, heq, List.length_cons]
        have h2 : (splitCharAux sep rest).length = rest.count sep + 1 := ih
        rw [heq] at h2
        simp only [List.length_cons] at h2
        have h3 : (c :: rest).count sep = rest.count sep := by
          simp [List.count_cons, Ne.symm h]
        rw [h3]
        omega

/-! ## C9: empty-commit placeholder -/

/-- C9: for an empty commit list the assembled prompt opens with the explicit
no-commits placeholder line, so the commits section is never empty. -/
theorem empty_commits_placeholder (files : List FileData) :
    format_commit_data_for_llm [] files =
      "Relevant Commits:\n" ++
        "- No individual commits found in range (perhaps a single merge commit?).\n" ++
        filesSection files := by
  apply String.ext
  simp [format_commit_data_for_llm, commitsSection, String.data_append]

/-! ## C7: repository-string validation -/

/-- C7 counterexample: `GitHubClient.__init__` accepts the repository string
`"a/"` although its name part is empty, so the claimed non-emptiness of both
parts is not enforced at construction time. -/
theorem empty_repo_part_accepted :
    ghClientAccepts "a/" = true ∧ pySplitChar "a/" '/' = ["a", ""] := by
  decide

/-- C7 amended: construction from an `owner/name` string succeeds exactly
when the string contains exactly one separator (zero or several separators
are rejected); emptiness of the owner part or the name part is not checked. -/
theorem ghClient_accepts_iff_one_separator (repo : String) :
    ghClientAccepts repo = true ↔ repo.data.count '/' = 1 := by
  rw [ghClientAccepts]
  simp only [Bool.and_eq_true, beq_iff_eq, pySplitChar, List.length_map, splitCharAux_length]
  constructor
  · rintro ⟨_, h2⟩
    omega
  · intro h
    have hm : '/' ∈ repo.data := List.count_pos_iff.mp (by omega)
    exact ⟨by simpa using hm, by omega⟩

theorem ghClient_accepts_witness : ghClientAccepts "owner/repo" = true :=
  (ghClient_accepts_iff_one_separator "owner/repo").mpr (by decide)

/-! ## C4: range-selection validation -/

/-- C4 counterexample: with both range-selection modes supplied
(`since_tag = "v1.0.0"` together with `tag_range = ("v1.1.0", "v1.2.0")`),
`process_repository` does not reject the configuration: the tag range
silently takes precedence and the comparison network call is issued. -/
theorem both_modes_not_rejected :
    processCalls (some "v1.0.0") (some ("v1.1.0", "v1.2.0")) none ⟨some "main"⟩ =
      (some ("v1.1.0", "v1.2.0"), [NetCall.compareCommits "v1.1.0" "v1.2.0"]) := rfl

/-- C4 amended: a missing or partially supplied range selection is rejected
before any network call — the CLI exits when `--from-tag` or `--to-tag` is
missing or empty, and the processor errors without any network call when
neither a truthy since tag nor a tag range is supplied — but when both modes
are supplied the tag range silently takes precedence instead of being
rejected, and the comparison call proceeds. -/
theorem range_mode_validation :
    (∀ (repo : String) (f t output token : Option String) (isLocal : Bool)
      (proc : Option (Option String × Option String)),
      (truthy f && truthy t) = false →
      generateRun repo f t output token isLocal proc = (.exitError, [])) ∧
    (∀ (s tb : Option String) (env : GitHubEnv), truthy s = false →
      processCalls s none tb env = (none, [])) ∧
    (∀ (s tb : Option String) (env : GitHubEnv) (f t : String),
      processCalls s (some (f, t)) tb env = (some (f, t), [NetCall.compareCommits f t])) := by
  refine ⟨?_, ?_, ?_⟩
  · intro repo f t output token isLocal proc h
    simp [generateRun, h]
  · intro s tb env h
    simp [processCalls, resolveRefs, h]
  · intro s tb env f t
    simp [processCalls, resolveRefs]

theorem range_mode_validation_witness :
    ((truthy (some "v1.0.0") && truthy (none : Option String)) = false ∧
      generateRun "acme/widgets" (some "v1.0.0") none none (some "tok") false none =
        (CliOutcome.exitError, [])) ∧
    (truthy (none : Option String) = false ∧
      processCalls none none none ⟨some "main"⟩ = (none, [])) ∧
    processCalls (some "since") (some ("v1.1.0", "v1.2.0")) none ⟨some "main"⟩ =
      (some ("v1.1.0", "v1.2.0"), [NetCall.compareCommits "v1.1.0" "v1.2.0"]) :=
  ⟨⟨by decide, range_mode_validation.1 _ _ _ _ _ _ _ (by decide)⟩,
    ⟨rfl, range_mode_validation.2.1 _ _ _ rfl⟩,
    range_mode_validation.2.2 _ _ _ _ _⟩

/-! ## C5: since-mode resolution -/

/-- C5: in since mode the comparison base is the since tag; the head is the
branch override when one is given (no remote lookup), else the repository's
default branch obtained by exactly one remote call; when no truthy default
branch can be determined the resolution fails; whenever a pair is resolved
the comparison is requested for exactly that base and head. -/
theorem since_mode_resolution :
    (∀ (s b : String) (env : GitHubEnv), s ≠ "" → b ≠ "" →
      processCalls (some s) none (some b) env =
        (some (s, b), [NetCall.compareCommits s b])) ∧
    (∀ (s db : String) (tb : Option String), s ≠ "" → truthy tb = false → db ≠ "" →
      processCalls (some s) none tb ⟨some db⟩ =
        (some (s, db), [NetCall.getDefaultBranch, NetCall.compareCommits s db])) ∧
    (∀ (s : String) (tb : Option String) (env : GitHubEnv), s ≠ "" → truthy tb = false →
      truthy env.defaultBranch = false →
      processCalls (some s) none tb env = (none, [NetCall.getDefaultBranch])) := by
  refine ⟨?_, ?_, ?_⟩
  · intro s b env hs hb
    simp [processCalls, resolveRefs, truthy_eq_true hs, truthy_eq_true hb]
  · intro s db tb hs htb hdb
    simp [processCalls, resolveRefs, htb, truthy_eq_true hs, truthy_eq_true hdb]
  · intro s tb env hs htb henv
    simp [processCalls, resolveRefs, htb, henv, truthy_eq_true hs]

/-- Scenario C of the specification, obtained from `since_mode_resolution`:
`since_tag = "v2.0.0"`, no branch override, default branch `"main"`. -/
theorem since_mode_resolution_witness :
    ("v2.0.0" ≠ "" ∧ truthy (none : Option String) = false ∧ "main" ≠ "") ∧
    processCalls (some "v2.0.0") none none ⟨some "main"⟩ =
      (some ("v2.0.0", "main"),
        [NetCall.getDefaultBranch, NetCall.compareCommits "v2.0.0" "main"]) :=
  ⟨⟨by decide, rfl, by decide⟩,
    since_mode_resolution.2.1 "v2.0.0" "main" none (by decide) rfl (by decide)⟩

/-! ## C8: deployment credential gate -/

/-- C8: in deployment mode a missing credential terminates the run with an
error before any external call is issued, and a dispatch call is only ever
made when a credential is present. -/
theorem deploy_requires_token :
    (∀ (repo : String) (f t output token : Option String)
      (proc : Option (Option String × Option String)),
      truthy token = false →
      generateRun repo f t output token false proc = (.exitError, [])) ∧
    (∀ (repo : String) (f t output token : Option String) (isLocal : Bool)
      (proc : Option (Option String × Option String)),
      CliAction.dispatchWorkflow ∈ (generateRun repo f t output token isLocal proc).2 →
      truthy token = true) := by
  constructor
  · intro repo f t output token proc h
    simp [generateRun, h]
  · intro repo f t output token isLocal proc h
    by_cases htok : truthy token = true
    · exact htok
    · rw [Bool.not_eq_true] at htok
      exfalso
      cases isLocal <;> rcases proc with _ | ⟨content, suggested⟩ <;>
        simp [generateRun, htok] at h <;>
        split_ifs at h <;> simp_all

/-- Scenario D of the specification, obtained from `deploy_requires_token`:
deploy mode with no credential exits with an error and makes no call. -/
theorem deploy_requires_token_witness :
    truthy (none : Option String) = false ∧
    generateRun "acme/widgets" (some "v1.0.0") (some "v1.1.0") none none false
        (some (some "content", none)) =
      (CliOutcome.exitError, []) :=
  ⟨rfl, deploy_requires_token.1 "acme/widgets" (some "v1.0.0") (some "v1.1.0") none none
    (some (some "content", none)) rfl⟩

/-! ## C1: generation-failure fallback -/

/-- C1: when the generation call fails (blocked response, no candidates,
empty text, or API error), `generate_changelog` does not raise: it returns
the deterministic non-empty fallback string, which is the explicit failure
notice carrying the error text, followed verbatim by the commit and file
data assembled into the prompt. -/
theorem generation_failure_fallback (commits : List CommitData) (files : List FileData)
    (fromRef toRef : String) (attempt : GenAttempt) (e : String)
    (h : safeGenerateContent attempt = .error e) :
    generate_changelog commits files fromRef toRef attempt =
        ("Failed to generate changelog due to an error: " ++ e ++
          "\n\nRaw commit data has been included below:\n\n# Commits between " ++
          fromRef ++ " and " ++ toRef ++ "\n\n") ++ commitDetails commits ++
        ("\n\n# Files Changed\n\n" ++ fileChanges files ++ "\n") ∧
      generate_changelog commits files fromRef toRef attempt ≠ "" := by
  have heq : generate_changelog commits files fromRef toRef attempt =
      fallbackContent e fromRef toRef commits files := by
    simp [generate_changelog, h]
  constructor
  · rw [heq]
    apply String.ext
    simp [fallbackContent, String.data_append]
  · rw [heq]
    intro hc
    have hd := congrArg String.data hc
    simp only [fallbackContent, String.data_append, List.append_assoc] at hd
    have h0 : "Failed to generate changelog due to an error: ".data ≠ [] := by decide
    exact h0 (List.append_eq_nil.mp hd).1

theorem generation_failure_fallback_witness :
    safeGenerateContent (GenAttempt.apiError "quota exceeded") =
        Except.error "quota exceeded" ∧
    (generate_changelog [] [] "v1.0.0" "v1.1.0" (GenAttempt.apiError "quota exceeded") =
        ("Failed to generate changelog due to an error: " ++ "quota exceeded" ++
          "\n\nRaw commit data has been included below:\n\n# Commits between " ++
          "v1.0.0" ++ " and " ++ "v1.1.0" ++ "\n\n") ++ commitDetails [] ++
        ("\n\n# Files Changed\n\n" ++ fileChanges [] ++ "\n") ∧
      generate_changelog [] [] "v1.0.0" "v1.1.0" (GenAttempt.apiError "quota exceeded") ≠ "") :=
  ⟨rfl, generation_failure_fallback [] [] "v1.0.0" "v1.1.0"
    (GenAttempt.apiError "quota exceeded") "quota exceeded" rfl⟩

/-! ## C2 and C10: file-section rendering bounds -/

theorem renderFilesLoop_all (total : Nat) :
    ∀ (l : List FileData) (inc : Nat), l.length + inc ≤ 50 →
      renderFilesLoop total l inc = concatAll (l.map renderFile)
  | [], _, _ => rfl
  | f :: rest, inc, hlen => by
    have hlt : ¬ 50 ≤ inc := by
      simp only [List.length_cons] at hlen
      omega
    have ih := renderFilesLoop_all total rest (inc + 1) (by
      simp only [List.length_cons] at hlen
      omega)
    simp only [renderFilesLoop, if_neg hlt, List.map_cons, concatAll, ih]

theorem renderFilesLoop_break (total : Nat) :
    ∀ (l : List FileData) (inc : Nat), inc ≤ 50 → 50 - inc < l.length →
      renderFilesLoop total l inc =
        concatAll ((l.take (50 - inc)).map renderFile) ++
          ("- ... (truncated " ++ toString (total - 50) ++ " more files)\n")
  | [], _, _, h2 => by simp at h2
  | f :: rest, inc, h1, h2 => by
    by_cases hc : 50 ≤ inc
    · have hinc : inc = 50 := le_antisymm h1 hc
      subst hinc
      simp only [renderFilesLoop, if_pos hc, Nat.sub_self, List.take_zero, List.map_nil,
        concatAll]
      apply String.ext
      simp [String.data_append]
    · have hstep : 50 - inc = (50 - (inc + 1)) + 1 := by omega
      have ih := renderFilesLoop_break total rest (inc + 1) (by omega) (by
        simp only [List.length_cons] at h2
        omega)
      simp only [renderFilesLoop, if_neg hc, ih, hstep, List.take_succ_cons, List.map_cons,
        concatAll]
      apply String.ext
      simp [String.data_append]

/-- C2: for a file list longer than 50 entries the assembled file section is
exactly the 50 first rendered entries followed by one omission-count line
stating how many files were left out; and a patch longer than 1000
characters is rendered as exactly its first 1000 characters followed by the
explicit diff-truncated marker inside the fenced block. -/
theorem prompt_truncation_bounds :
    (∀ files : List FileData, 50 < files.length →
      filesSection files =
        "\nChanged Files Summary (Patches/Diffs):\n" ++
          concatAll ((files.take 50).map renderFile) ++
          ("- ... (truncated " ++ toString (files.length - 50) ++ " more files)\n")) ∧
    (∀ f : FileData, 1000 < (f.patch.getD "").length →
      renderFile f =
        "- " ++ f.filename.getD "Unknown file" ++ " (" ++ f.status.getD "unknown" ++ ")" ++
          ("\n```diff\n" ++
            (pySlice (f.patch.getD "") 1000 ++ "\n... (diff truncated)") ++ "\n```\n") ++
          "\n") := by
  constructor
  · intro files h
    have hempty : files.isEmpty = false := by
      cases files
      · simp at h
      · rfl
    have hloop := renderFilesLoop_break files.length files 0 (by omega) (by omega)
    unfold filesSection
    rw [if_neg (by simp [hempty]), hloop]
    simp only [Nat.sub_zero]
    apply String.ext
    simp [String.data_append]
  · intro f h
    have hp : f.patch.getD "" ≠ "" := by
      intro h0
      rw [h0] at h
      simp [String.length] at h
    simp [renderFile, hp, h]

def sampleLongPatch : String := String.mk (List.replicate 1001 'a')

def sampleBigFile : FileData := ⟨some "big.py", some "modified", some sampleLongPatch, some 1, some 0⟩

def manyFiles : List FileData := List.replicate 51 sampleBigFile

theorem prompt_truncation_bounds_witness :
    (50 < manyFiles.length ∧
      filesSection manyFiles =
        "\nChanged Files Summary (Patches/Diffs):\n" ++
          concatAll ((manyFiles.take 50).map renderFile) ++
          ("- ... (truncated " ++ toString (manyFiles.length - 50) ++ " more files)\n")) ∧
    (1000 < (sampleBigFile.patch.getD "").length ∧
      renderFile sampleBigFile =
        "- " ++ sampleBigFile.filename.getD "Unknown file" ++ " (" ++
          sampleBigFile.status.getD "unknown" ++ ")" ++
          ("\n```diff\n" ++
            (pySlice (sampleBigFile.patch.getD "") 1000 ++ "\n... (diff truncated)") ++
            "\n```\n") ++ "\n") := by
  have h1 : 50 < manyFiles.length := by simp [manyFiles]
  have h2 : 1000 < (sampleBigFile.patch.getD "").length := by
    show 1000 < (List.replicate 1001 'a').length
    simp
  exact ⟨⟨h1, prompt_truncation_bounds.1 manyFiles h1⟩,
    ⟨h2, prompt_truncation_bounds.2 sampleBigFile h2⟩⟩

/-- C10: a file whose patch is absent or empty is still rendered — its
filename and status line carries the explicit no-diff marker instead of a
fenced diff block — and every file of a list of at most 50 files contributes
its rendered entry to the file section, so a patch-less file is never
silently omitted from the prompt. -/
theorem patchless_file_rendered :
    (∀ f : FileData, f.patch.getD "" = "" →
      renderFile f =
        "- " ++ f.filename.getD "Unknown file" ++ " (" ++ f.status.getD "unknown" ++ ")" ++
          " (No diff provided)\n" ++ "\n") ∧
    (∀ files : List FileData, files ≠ [] → files.length ≤ 50 →
      filesSection files =
        "\nChanged Files Summary (Patches/Diffs):\n" ++ concatAll (files.map renderFile)) := by
  constructor
  · intro f hp
    simp [renderFile, hp]
  · intro files hne hlen
    have hempty : files.isEmpty = false := by
      cases files
      · exact absurd rfl hne
      · rfl
    unfold filesSection
    rw [if_neg (by simp [hempty]), renderFilesLoop_all files.length files 0 (by omega)]

def samplePatchlessFile : FileData := ⟨some "image.png", some "added", none, some 0, some 0⟩

theorem patchless_file_rendered_witness :
    (samplePatchlessFile.patch.getD "" = "" ∧
      renderFile samplePatchlessFile =
        "- " ++ samplePatchlessFile.filename.getD "Unknown file" ++ " (" ++
          samplePatchlessFile.status.getD "unknown" ++ ")" ++ " (No diff provided)\n" ++ "\n") ∧
    (([samplePatchlessFile] : List FileData) ≠ [] ∧ [samplePatchlessFile].length ≤ 50 ∧
      filesSection [samplePatchlessFile] =
        "\nChanged Files Summary (Patches/Diffs):\n" ++
          concatAll ([samplePatchlessFile].map renderFile)) :=
  ⟨⟨rfl, patchless_file_rendered.1 samplePatchlessFile rfl⟩,
    ⟨by simp, by simp, patchless_file_rendered.2 [samplePatchlessFile] (by simp) (by simp)⟩⟩

/-! ## C6: filename sanitization -/

theorem stripDotSpace_subset {c : Char} {l : List Char} (h : c ∈ stripDotSpace l) : c ∈ l := by
  have h1 : c ∈ List.dropWhile isDotOrSpace l :=
    ( List.rdropWhile_prefix isDotOrSpace (List.dropWhile isDotOrSpace l)).sublist.subset h
  exact (List.dropWhile_suffix isDotOrSpace).sublist.subset h1

theorem mem_cleanedChars {c : Char} {name : String} (h : c ∈ cleanedChars name) :
    c ≠ '/' ∧ isBadFileChar c = false := by
  have h1 := stripDotSpace_subset h
  rcases List.mem_filter.mp h1 with ⟨hm, hq⟩
  refine ⟨?_, by simpa using hq⟩
  rcases List.mem_map.mp hm with ⟨d, _, hd⟩
  rw [← hd]
  by_cases hd2 : d = '/'
  · simp [slashToDash, hd2]
  · simp only [slashToDash, if_neg hd2]
    exact hd2

theorem dropWhile_of_stripDotSpace (l : List Char) :
    List.dropWhile isDotOrSpace (stripDotSpace l) = stripDotSpace l := by
  rw [List.dropWhile_eq_self_iff]
  intro hl
  have hpre : stripDotSpace l <+: List.dropWhile isDotOrSpace l :=
    List.rdropWhile_prefix isDotOrSpace (List.dropWhile isDotOrSpace l)
  have hlen : 0 < (List.dropWhile isDotOrSpace l).length := lt_of_lt_of_le hl hpre.length_le
  have hget : (stripDotSpace l).get ⟨0, hl⟩ = (List.dropWhile isDotOrSpace l).get ⟨0, hlen⟩ := by
    simp only [List.get_eq_getElem]
    exact List.IsPrefix.getElem hpre hl
  rw [hget]
  exact List.dropWhile_get_zero_not isDotOrSpace l hlen

theorem stripDotSpace_idem (l : List Char) :
    stripDotSpace (stripDotSpace l) = stripDotSpace l := by
  show List.rdropWhile isDotOrSpace (List.dropWhile isDotOrSpace (stripDotSpace l)) =
    stripDotSpace l
  rw [dropWhile_of_stripDotSpace l]
  show List.rdropWhile isDotOrSpace
      (List.rdropWhile isDotOrSpace (List.dropWhile isDotOrSpace l)) = stripDotSpace l
  rw [List.rdropWhile_idempotent]
  rfl

theorem map_slashToDash_eq_self {l : List Char} (h : ∀ c ∈ l, c ≠ '/') :
    l.map slashToDash = l := by
  induction l with
  | nil => rfl
  | cons c rest ih =>
    have hc : slashToDash c = c := by
      simp only [slashToDash, if_neg (h c (by simp))]
    simp only [List.map_cons, hc, ih (fun d hd => h d (by simp [hd]))]

theorem cleanedChars_idem (name : String) :
    cleanedChars (String.mk (cleanedChars name)) = cleanedChars name := by
  have hmap : (cleanedChars name).map slashToDash = cleanedChars name :=
    map_slashToDash_eq_self (fun c hc => (mem_cleanedChars hc).1)
  have hfil : (cleanedChars name).filter (fun c => !isBadFileChar c) = cleanedChars name :=
    List.filter_eq_self.mpr (fun c hc => by simp [(mem_cleanedChars hc).2])
  show stripDotSpace (((String.mk (cleanedChars name)).data.map slashToDash).filter
      (fun c => !isBadFileChar c)) = cleanedChars name
  rw [show (String.mk (cleanedChars name)).data = cleanedChars name from rfl, hmap, hfil]
  show stripDotSpace (stripDotSpace ((name.data.map slashToDash).filter
      (fun c => !isBadFileChar c))) = cleanedChars name
  rw [stripDotSpace_idem]
  rfl

/-- C6: `sanitize_filename` is idempotent, its result never contains a slash
or a colon, and sanitizing `"a/b:c"` yields a string (namely `"a-bc"`) free
of both characters. -/
theorem sanitize_filename_properties :
    (∀ s : String, sanitize_filename (sanitize_filename s) = sanitize_filename s) ∧
    (∀ s : String, '/' ∉ (sanitize_filename s).data ∧ ':' ∉ (sanitize_filename s).data) ∧
    sanitize_filename "a/b:c" = "a-bc" := by
  have hfix : sanitize_filename "invalid_filename" = "invalid_filename" := by decide
  refine ⟨?_, ?_, by decide⟩
  · intro s
    by_cases hc : cleanedChars s = [] ∨ cleanedChars s = ['.']
    · have h1 : sanitize_filename s = "invalid_filename" := by
        unfold sanitize_filename
        rw [if_pos hc]
      rw [h1, hfix]
    · have h1 : sanitize_filename s = String.mk (cleanedChars s) := by
        unfold sanitize_filename
        rw [if_neg hc]
      rw [h1]
      unfold sanitize_filename
      rw [cleanedChars_idem s, if_neg hc]
  · intro s
    by_cases hc : cleanedChars s = [] ∨ cleanedChars s = ['.']
    · have h1 : sanitize_filename s = "invalid_filename" := by
        unfold sanitize_filename
        rw [if_pos hc]
      rw [h1]
      exact ⟨by decide, by decide⟩
    · have h1 : sanitize_filename s = String.mk (cleanedChars s) := by
        unfold sanitize_filename
        rw [if_neg hc]
      rw [h1]
      constructor
      · intro hmem
        exact (mem_cleanedChars hmem).1 rfl
      · intro hmem
        exact absurd (mem_cleanedChars hmem).2 (by decide)

/-! ## C3: output-path resolution -/

theorem eq_empty_of_data_eq_nil {s : String} (h : s.data = []) : s = "" := by
  cases s
  simp_all

theorem append_ne_empty_left {a : String} (b : String) (h : a ≠ "") : (a ++ b : String) ≠ "" := by
  intro hc
  apply h
  have hd := congrArg String.data hc
  rw [String.data_append] at hd
  exact eq_empty_of_data_eq_nil (List.append_eq_nil.mp hd).1

theorem fallback_ne_empty (repo f t : String) :
    ("changelogs/" ++ sanitize_filename repo ++ "_" ++ sanitize_filename f ++ "_to_" ++
      sanitize_filename t ++ ".md" : String) ≠ "" :=
  append_ne_empty_left _ (append_ne_empty_left _ (append_ne_empty_left _
    (append_ne_empty_left _ (append_ne_empty_left _ (append_ne_empty_left _ (by decide))))))

/-- C3 counterexample: an explicit output path without a directory component
is not used verbatim — the explicit output `"notes.md"` resolves to
`"changelogs/notes.md"`. -/
theorem explicit_output_not_verbatim :
    resolveOutputPath (some "notes.md") none "acme/widgets" "v1.0.0" "v1.1.0" =
        "changelogs/notes.md" ∧
      ("changelogs/notes.md" : String) ≠ "notes.md" := by
  constructor
  · decide
  · decide

/-- C3 amended: output-path resolution precedence — an explicit output path
is used verbatim when it contains a directory separator, and is otherwise
placed inside the `changelogs` directory; else the sanitized AI suggestion
with a `.md` extension ensured, inside `changelogs`; else the deterministic
fallback name built from the sanitized repo and tag range, inside
`changelogs`; the resolved path is always non-empty, and Scenario A resolves
to `changelogs/acme-widgets_v1.0.0_to_v1.1.0.md`. -/
theorem output_path_precedence :
    (∀ (o : String) (suggested : Option String) (repo f t : String),
      o ≠ "" → o.data.contains '/' = true →
      resolveOutputPath (some o) suggested repo f t = o) ∧
    (∀ (o : String) (suggested : Option String) (repo f t : String),
      o ≠ "" → o.data.contains '/' = false →
      resolveOutputPath (some o) suggested repo f t = "changelogs/" ++ o) ∧
    (∀ (s : String) (output : Option String) (repo f t : String),
      truthy output = false → s ≠ "" →
      resolveOutputPath output (some s) repo f t =
        "changelogs/" ++ ensureMdExt (sanitize_filename s)) ∧
    (∀ (output suggested : Option String) (repo f t : String),
      truthy output = false → truthy suggested = false →
      resolveOutputPath output suggested repo f t =
        "changelogs/" ++ sanitize_filename repo ++ "_" ++ sanitize_filename f ++ "_to_" ++
          sanitize_filename t ++ ".md") ∧
    (∀ (output suggested : Option String) (repo f t : String),
      resolveOutputPath output suggested repo f t ≠ "") ∧
    resolveOutputPath none none "acme/widgets" "v1.0.0" "v1.1.0" =
      "changelogs/acme-widgets_v1.0.0_to_v1.1.0.md" := by
  have hchl : ∀ x : String, ("changelogs/" ++ x : String) ≠ "" := fun x =>
    append_ne_empty_left x (by decide)
  refine ⟨?_, ?_, ?_, ?_, ?_, by decide⟩
  · intro o suggested repo f t ho hcon
    have hmem : '/' ∈ o.data := by simpa using hcon
    simp [resolveOutputPath, truthy_eq_true ho, hmem]
  · intro o suggested repo f t ho hcon
    have hnm : '/' ∉ o.data := fun hm => absurd hcon (by simp [hm])
    have hto : ¬ o.data.take 1 = ['/'] := by
      intro ht
      have hm : '/' ∈ o.data.take 1 := by
        rw [ht]
        simp
      exact hnm (List.mem_of_mem_take hm)
    simp [resolveOutputPath, truthy_eq_true ho, hnm, hto]
  · intro s output repo f t houtput hs
    simp [resolveOutputPath, houtput, truthy_eq_true hs]
  · intro output suggested repo f t houtput hsugg
    simp [resolveOutputPath, houtput, hsugg]
  · intro output suggested repo f t
    rcases output with _ | o
    · rcases suggested with _ | s
      · simp only [resolveOutputPath, truthy_none, Bool.false_eq_true, if_false]
        exact fallback_ne_empty repo f t
      · by_cases hs : s = ""
        · subst hs
          simp only [resolveOutputPath, truthy_none, Bool.false_eq_true, if_false]
          rw [show truthy (some "") = false from rfl]
          simp only [Bool.false_eq_true, if_false]
          exact fallback_ne_empty repo f t
        · simp only [resolveOutputPath, truthy_none, Bool.false_eq_true, if_false,
            truthy_eq_true hs, if_true]
          exact hchl _
    · by_cases ho : o = ""
      · subst ho
        rcases suggested with _ | s
        · simp only [resolveOutputPath]
          rw [show truthy (some "") = false from rfl]
          simp only [truthy_none, Bool.false_eq_true, if_false]
          exact fallback_ne_empty repo f t
        · by_cases hs : s = ""
          · subst hs
            simp only [resolveOutputPath]
            rw [show truthy (some "") = false from rfl]
            simp only [Bool.false_eq_true, if_false]
            exact fallback_ne_empty repo f t
          · simp only [resolveOutputPath]
            rw [show truthy (some "") = false from rfl]
            simp only [Bool.false_eq_true, if_false, truthy_eq_true hs, if_true]
            exact hchl _
      · simp only [resolveOutputPath, truthy_eq_true ho, if_true]
        by_cases hcon : o.data.contains '/' = true
        · simp only [hcon, if_true, Option.getD_some]
          exact ho
        · rw [Bool.not_eq_true] at hcon
          simp only [hcon, Bool.false_eq_true, if_false, Option.getD_some]
          by_cases hto : o.data.take 1 = ['/']
          · simp only [hto, if_pos rfl]
            exact ho
          · simp only [if_neg hto]
            exact hchl _

theorem output_path_precedence_witness :
    (("src/CHANGES.md" : String) ≠ "" ∧ "src/CHANGES.md".data.contains '/' = true ∧
      resolveOutputPath (some "src/CHANGES.md") none "acme/widgets" "v1.0.0" "v1.1.0" =
        "src/CHANGES.md") ∧
    (("notes-v2.md" : String) ≠ "" ∧ "notes-v2.md".data.contains '/' = false ∧
      resolveOutputPath (some "notes-v2.md") none "acme/widgets" "v1.0.0" "v1.1.0" =
        "changelogs/" ++ "notes-v2.md") ∧
    (truthy (none : Option String) = false ∧ ("release notes" : String) ≠ "" ∧
      resolveOutputPath none (some "release notes") "acme/widgets" "v1.0.0" "v1.1.0" =
        "changelogs/" ++ ensureMdExt (sanitize_filename "release notes")) ∧
    (resolveOutputPath none none "acme/widgets" "v1.0.0" "v1.1.0" =
      "changelogs/" ++ sanitize_filename "acme/widgets" ++ "_" ++ sanitize_filename "v1.0.0" ++
        "_to_" ++ sanitize_filename "v1.1.0" ++ ".md") ∧
    resolveOutputPath (some "x") none "repo" "f" "t" ≠ "" :=
  ⟨⟨by decide, by decide,
      output_path_precedence.1 "src/CHANGES.md" none "acme/widgets" "v1.0.0" "v1.1.0"
        (by decide) (by decide)⟩,
    ⟨by decide, by decide,
      output_path_precedence.2.1 "notes-v2.md" none "acme/widgets" "v1.0.0" "v1.1.0"
        (by decide) (by decide)⟩,
    ⟨rfl, by decide,
      output_path_precedence.2.2.1 "release notes" none "acme/widgets" "v1.0.0" "v1.1.0"
        rfl (by decide)⟩,
    output_path_precedence.2.2.2.1 none none "acme/widgets" "v1.0.0" "v1.1.0" rfl rfl,
    output_path_precedence.2.2.2.2.1 (some "x") none "repo" "f" "t"⟩

end Tagline
